import Mathlib

/-!
Shallow embedding of the catformer platformer demo (pennomi/catformer).

The embedding models the gameplay logic of `src/main.py`, `src/game/player.py`
and `src/game/world.py`:

* the jump-through collision gate (`jump_through_collision_handler` in
  `src/main.py`),
* the bullet lifetime logic (`Bullet.update` / `Bullet.destroy` in
  `src/game/player.py`),
* the per-frame player update: bullet aging, shot cooldown, the contact
  classifier (`calculate_landing`), the health gate, the jump-budget refill,
  jumping, movement and shooting (`Player.update` in `src/game/player.py`),
* moving platforms (`Platform.update` in `src/game/world.py`).

Player-side quantities (velocities, impulses, slopes) are modelled over ℚ,
which keeps every definition computable and every concrete run decidable.
Platform motion uses Euclidean distance (pymunk `Vec2d.get_distance`), so the
platform model lives over ℝ with `Real.sqrt`.  Purely graphical or audio
state (sprites, sounds, screen positions) is not modelled; neither are the
physics-engine internals (the embedding consumes contact arbiters as data,
exactly as the source consumes `pymunk` arbiters).
-/

namespace Catformer

/-- 2-D vector over ℚ, standing in for `pymunk.Vec2d` wherever the source
only does field arithmetic on the components. -/
structure Vec2 where
  x : ℚ
  y : ℚ
deriving DecidableEq, Repr

/-- Component-wise negation, for the source's `n = -arbiter.contacts[0].normal`. -/
def Vec2.neg (v : Vec2) : Vec2 := ⟨-v.x, -v.y⟩

/-! Collision-type constants from `src/game/__init__.py` (and `src/main.py`). -/

def PLAYER_COLLISION_TYPE : ℕ := 1
def JUMP_THROUGH_COLLISION_TYPE : ℕ := 2
def BULLET_COLLISION_TYPE : ℕ := 3

/-! ## Jump-Through Gate (`src/main.py`, `jump_through_collision_handler`)

The handler is registered as the `begin` callback for the
(player, jump-through) collision pair.  In pymunk, a `begin` callback that
returns `True` lets the engine process the collision (the contact is solid);
returning `False` rejects the contact for this engagement (pass-through).
`arbiter.shapes[0]` is the shape with the first registered collision type,
i.e. the player's collider, so the handler reads the player body's velocity. -/

/-- The data of the arbiter that `jump_through_collision_handler` inspects:
the velocity of the body of `arbiter.shapes[0]` (the player's body). -/
structure JTArbiter where
  shape0_body_velocity : Vec2
deriving DecidableEq, Repr

/-- `src/main.py` lines 37-39:
`return arbiter.shapes[0].body.velocity.y < 0`.
`true` means the engine processes the collision (solid contact). -/
def jump_through_collision_handler (arbiter : JTArbiter) : Bool :=
  decide (arbiter.shape0_body_velocity.y < 0)

/-! ## Bullets (`src/game/player.py`, class `Bullet`)

A bullet's kinematic state (position, velocity) lives in the physics engine
and is irrelevant to the lifetime logic, so it is not modelled.  `in_space`
models membership of the body/shape pair in the global `SPACE`:
`SPACE.remove` on an absent object raises `KeyError`. -/

structure Bullet where
  radius : ℤ
  speed : ℤ
  ttl : ℤ
  cooldown : ℤ
  active : Bool
  in_space : Bool
deriving DecidableEq, Repr

/-- The lifetime-relevant part of `Bullet.__init__`: `radius = 3`,
`speed = 500`, `ttl = 40`, `cooldown = 10`, the body/shape are added to
`SPACE`, and `active = True`. -/
def Bullet.init : Bullet :=
  { radius := 3, speed := 500, ttl := 40, cooldown := 10,
    active := true, in_space := true }

/-- `SPACE.remove(self.body, self.shape)`: succeeds exactly when the object
is still in the space, otherwise raises `KeyError` (modelled as `.error ()`). -/
def space_remove (b : Bullet) : Except Unit Bullet :=
  if b.in_space then .ok { b with in_space := false } else .error ()

/-- `Bullet.destroy`: try to remove the body/shape from the space and mark the
bullet inactive; a `KeyError` (already removed) is silently swallowed, leaving
the bullet unchanged.  Note the faithful control flow: `self.active = False`
runs only when `SPACE.remove` did not raise. -/
def Bullet.destroy (b : Bullet) : Bullet :=
  match space_remove b with
  | .ok b' => { b' with active := false }
  | .error _ => b

/-- `Bullet.update` state change: decrement `ttl`; destroy when `ttl < 0`.
The source returns `self.active`; callers read it off the new state. -/
def Bullet.step (b : Bullet) : Bullet :=
  let b := { b with ttl := b.ttl - 1 }
  if b.ttl < 0 then b.destroy else b

/-- The bullet-aging loop at the top of `Player.update`: update every bullet
and keep exactly those whose `update()` returned `True` (i.e. still active). -/
def ageBullets (l : List Bullet) : List Bullet :=
  (l.map Bullet.step).filter (fun b => b.active)

/-- `n` frames of the bullet-aging loop. -/
def ageBulletsN : ℕ → List Bullet → List Bullet
  | 0, l => l
  | n + 1, l => ageBullets (ageBulletsN n l)

/-! ## Player state and per-frame update (`src/game/player.py`, class `Player`)

The player's position is owned by the physics engine and never read by the
update logic, so only the velocity is modelled.  `pressed_keys.get(k)` is
pygame's frames-held counter for key `k`; an unbound or unpressed key reads
as `0`, and `Player.update` treats the jump key as pressed exactly when the
counter equals `1` (edge trigger). -/

/-- Which key the player faces (`current_facing` compares against
`left_key` / `right_key`). -/
inductive Facing where
  | left
  | right
deriving DecidableEq, Repr

/-- The frames-held counters `pressed_keys.get(...)` for this player's
bound keys. -/
structure Keys where
  jump : ℕ
  left : ℕ
  right : ℕ
  shoot : ℕ
deriving DecidableEq, Repr

/-- The data `calculate_landing` reads off one contact arbiter:
`arbiter.contacts[0].normal`, `arbiter.shapes[1]` (the other shape's
collision type and its body's velocity) and `arbiter.total_impulse`. -/
structure Arbiter where
  normal : Vec2
  shape1_collision_type : ℕ
  shape1_body_velocity : Vec2
  total_impulse : Vec2
deriving DecidableEq, Repr

/-- The mutable player state touched by `Player.update` and its helpers,
plus the per-player constants set in `Player.__init__`. -/
structure PlayerState where
  mass : ℚ
  velocity : Vec2
  feet_surface_velocity : Vec2
  max_jumps : ℤ
  remaining_jumps : ℤ
  speed : ℚ
  jump_speed : ℚ
  max_health : ℤ
  health : ℤ
  shot_cooldown : ℤ
  landed : Bool
  landed_hard : Bool
  ground_velocity : Vec2
  ground_slope : ℚ
  current_facing : Facing
  bullets : List Bullet
deriving DecidableEq, Repr

/-- The state produced by `Player.__init__`: body mass 5, `max_jumps = 2`,
`remaining_jumps = max_jumps`, `speed = 100`, `jump_speed = 400`,
`max_health = 10`, `health = max_health`, `shot_cooldown = 0`, not landed,
zero ground velocity and slope, facing the right key, no bullets. -/
def PlayerState.init : PlayerState :=
  { mass := 5, velocity := ⟨0, 0⟩, feet_surface_velocity := ⟨0, 0⟩,
    max_jumps := 2, remaining_jumps := 2, speed := 100, jump_speed := 400,
    max_health := 10, health := 10, shot_cooldown := 0,
    landed := false, landed_hard := false, ground_velocity := ⟨0, 0⟩,
    ground_slope := 0, current_facing := Facing.right, bullets := [] }

/-- `Player.jump`: if any jumps remain (Python truthiness: nonzero), set the
vertical velocity to `ground_velocity.y + jump_speed` and decrement the
budget; otherwise do nothing. -/
def PlayerState.jump (s : PlayerState) : PlayerState :=
  if s.remaining_jumps ≠ 0 then
    { s with velocity := { s.velocity with y := s.ground_velocity.y + s.jump_speed },
             remaining_jumps := s.remaining_jumps - 1 }
  else s

/-- `Player.shoot`: blocked while the cooldown is nonzero; otherwise spawn a
bullet, append it to the active list and reset the cooldown to the bullet's
`cooldown` constant. -/
def PlayerState.shoot (s : PlayerState) : PlayerState :=
  if s.shot_cooldown ≠ 0 then s
  else
    let bullet := Bullet.init
    { s with bullets := s.bullets ++ [bullet], shot_cooldown := bullet.cooldown }

/-- The `lerp` helper inside `Player.move`: move from `f1` toward `f2` by at
most `d`. -/
def lerp (f1 f2 d : ℚ) : ℚ :=
  f1 + min (max (f2 - f1) (-d)) d

/-- `Player.move`: derive `target_vx` from the held movement keys (the right
key's conditional runs second, so it wins when both are held), store it as
the feet's surface velocity, lerp the horizontal velocity toward
`target_vx + ground_velocity.x` by at most 10 while airborne, and clamp the
vertical velocity at the terminal value -300. -/
def PlayerState.move (s : PlayerState) (keys : Keys) : PlayerState :=
  let fv : Facing × ℚ :=
    if keys.left ≠ 0 then (Facing.left, -s.speed) else (s.current_facing, 0)
  let fv : Facing × ℚ :=
    if keys.right ≠ 0 then (Facing.right, s.speed) else fv
  let target_vx := fv.2
  let s := { s with current_facing := fv.1,
                    feet_surface_velocity := ⟨target_vx, 0⟩ }
  let s :=
    if s.landed = false then
      { s with velocity :=
          { s.velocity with x := lerp s.velocity.x (target_vx + s.ground_velocity.x) 10 } }
    else s
  { s with velocity := { s.velocity with y := max s.velocity.y (-300) } }

/-- The body of the inner `calculate_landing(arbiter)` callback: compute the
inverted contact normal `n`; if `n.y > 0` and the other shape is not a
bullet, record the other body's velocity as the ground velocity, mark the
player landed, derive `landing_speed = total_impulse.y / mass`, set
`landed_hard` for speeds above 100, take one point of squish damage above
1000, and record `ground_slope = n.x / n.y`. -/
def calculate_landing (s : PlayerState) (arbiter : Arbiter) : PlayerState :=
  let n := arbiter.normal.neg
  if n.y > 0 ∧ arbiter.shape1_collision_type ≠ BULLET_COLLISION_TYPE then
    let landing_speed := arbiter.total_impulse.y / s.mass
    { s with ground_velocity := arbiter.shape1_body_velocity,
             landed := true,
             landed_hard := decide (landing_speed > 100),
             health := if landing_speed > 1000 then s.health - 1 else s.health,
             ground_slope := n.x / n.y }
  else s

/-- The part of `Player.update` before contact classification: age the
bullets and tick the shot cooldown (decremented only while nonzero). -/
def PlayerState.preContact (s : PlayerState) : PlayerState :=
  let s := { s with bullets := ageBullets s.bullets }
  if s.shot_cooldown ≠ 0 then { s with shot_cooldown := s.shot_cooldown - 1 } else s

/-- The contact-classification phase of `Player.update`: clear the per-frame
grounding snapshot, then run `calculate_landing` over every arbiter touching
the body (`self.body.each_arbiter`), in order. -/
def PlayerState.classify (s : PlayerState) (arbiters : List Arbiter) : PlayerState :=
  arbiters.foldl calculate_landing { s with landed := false, landed_hard := false }

/-- The part of `Player.update` after classification: the dead gate
(`health < 0` returns immediately), the jump-budget refill on shallow
ground, the edge-triggered jump, movement, and shooting while the key is
held. -/
def PlayerState.postContact (s : PlayerState) (keys : Keys) : PlayerState :=
  if s.health < 0 then s
  else
    let s := if s.landed = true ∧ s.ground_slope < 2
             then { s with remaining_jumps := s.max_jumps } else s
    let s := if keys.jump = 1 then s.jump else s
    let s := s.move keys
    if keys.shoot ≠ 0 then s.shoot else s

/-- `Player.update(pressed_keys)`, with the physics engine's per-frame
arbiter list passed explicitly. -/
def PlayerState.update (s : PlayerState) (arbiters : List Arbiter) (keys : Keys) :
    PlayerState :=
  ((s.preContact).classify arbiters).postContact keys

/-- One input frame: the arbiters the engine reports for the player's body
this frame, and the key counters. -/
def Frame : Type := List Arbiter × Keys

/-- A whole play session: fold `Player.update` over a sequence of frames. -/
def PlayerState.run (s : PlayerState) (frames : List Frame) : PlayerState :=
  frames.foldl (fun s f => s.update f.1 f.2) s

/-! ## Moving platforms (`src/game/world.py`, class `Platform`)

`Platform.update` uses `Vec2d.get_distance` (Euclidean distance) and
`Vec2d.interpolate_to`, so the platform model lives over ℝ. -/

/-- 2-D vector over ℝ for platform motion. -/
structure Vec2R where
  x : ℝ
  y : ℝ

/-- pymunk `Vec2d.get_distance(other)`: the Euclidean distance. -/
noncomputable def Vec2R.get_distance (a b : Vec2R) : ℝ :=
  Real.sqrt ((b.x - a.x) ^ 2 + (b.y - a.y) ^ 2)

/-- pymunk `Vec2d.interpolate_to(other, range)`: `self + (other - self) * range`. -/
def Vec2R.interpolate_to (a b : Vec2R) (t : ℝ) : Vec2R :=
  ⟨a.x + (b.x - a.x) * t, a.y + (b.y - a.y) * t⟩

/-- The state of a `Platform` that `Platform.update` touches: the waypoint
list and speed from the constructor, the current target index, and the
body's position and velocity.  The constructor places a moving platform's
body at `waypoints[0]` with `target_index = 0`. -/
structure Platform where
  waypoints : List Vec2R
  speed : ℝ
  target_index : ℕ
  position : Vec2R
  velocity : Vec2R

/-- `Platform.update(dt, players)` (`src/game/world.py` lines 165-178): a
platform without waypoints is a no-op; otherwise measure the distance to the
current target waypoint, advance the target index cyclically (and snap with
`t = 1`) when within `speed`, else move a fraction `t = speed / distance` of
the way; finally set the body's velocity to the realized displacement
divided by `dt`. -/
noncomputable def Platform.update (p : Platform) (dt : ℝ) : Platform :=
  match p.waypoints with
  | [] => p
  | _ :: _ =>
    let destination := p.waypoints.getD p.target_index ⟨0, 0⟩
    let current_pos := p.position
    let distance := current_pos.get_distance destination
    let it : ℕ × ℝ :=
      if distance < p.speed then ((p.target_index + 1) % p.waypoints.length, 1)
      else (p.target_index, p.speed / distance)
    let new_pos := current_pos.interpolate_to destination it.2
    { p with target_index := it.1,
             position := new_pos,
             velocity := ⟨(new_pos.x - current_pos.x) / dt,
                          (new_pos.y - current_pos.y) / dt⟩ }

/-- `n` update steps of a platform at a fixed `dt`. -/
noncomputable def Platform.updateN (p : Platform) (dt : ℝ) : ℕ → Platform
  | 0 => p
  | n + 1 => (p.updateN dt n).update dt

/-- An arbiter qualifies as a squish contact for a body of mass `m` when it
passes `calculate_landing`'s ground guard and its landing speed exceeds the
squish threshold 1000. -/
def isSquish (m : ℚ) (a : Arbiter) : Bool :=
  decide (a.normal.neg.y > 0) && decide (a.shape1_collision_type ≠ BULLET_COLLISION_TYPE)
    && decide (a.total_impulse.y / m > 1000)

/-! ### Field-preservation lemmas for the player update phases -/

theorem calculate_landing_mass (s : PlayerState) (a : Arbiter) :
    (calculate_landing s a).mass = s.mass := by
  simp only [calculate_landing]; split <;> rfl

theorem calculate_landing_velocity (s : PlayerState) (a : Arbiter) :
    (calculate_landing s a).velocity = s.velocity := by
  simp only [calculate_landing]; split <;> rfl

theorem calculate_landing_remaining_jumps (s : PlayerState) (a : Arbiter) :
    (calculate_landing s a).remaining_jumps = s.remaining_jumps := by
  simp only [calculate_landing]; split <;> rfl

theorem calculate_landing_max_jumps (s : PlayerState) (a : Arbiter) :
    (calculate_landing s a).max_jumps = s.max_jumps := by
  simp only [calculate_landing]; split <;> rfl

theorem calculate_landing_bullets (s : PlayerState) (a : Arbiter) :
    (calculate_landing s a).bullets = s.bullets := by
  simp only [calculate_landing]; split <;> rfl

theorem calculate_landing_shot_cooldown (s : PlayerState) (a : Arbiter) :
    (calculate_landing s a).shot_cooldown = s.shot_cooldown := by
  simp only [calculate_landing]; split <;> rfl

theorem calculate_landing_health (s : PlayerState) (a : Arbiter) :
    (calculate_landing s a).health =
      if isSquish s.mass a then s.health - 1 else s.health := by
  unfold calculate_landing isSquish
  by_cases h1 : a.normal.neg.y > 0 ∧ a.shape1_collision_type ≠ BULLET_COLLISION_TYPE
  · rw [if_pos h1]
    by_cases h2 : a.total_impulse.y / s.mass > 1000 <;>
      simp [h1.1, h1.2, h2]
  · rw [if_neg h1]
    rw [not_and_or] at h1
    rcases h1 with h1 | h1 <;> simp [h1]

theorem calculate_landing_landed_of (s : PlayerState) (a : Arbiter)
    (h : ¬ (a.normal.neg.y > 0 ∧ a.shape1_collision_type ≠ BULLET_COLLISION_TYPE)) :
    calculate_landing s a = s := by
  unfold calculate_landing
  rw [if_neg h]

theorem jump_health (s : PlayerState) : s.jump.health = s.health := by
  unfold PlayerState.jump; split <;> rfl

theorem jump_mass (s : PlayerState) : s.jump.mass = s.mass := by
  unfold PlayerState.jump; split <;> rfl

theorem jump_max_jumps (s : PlayerState) : s.jump.max_jumps = s.max_jumps := by
  unfold PlayerState.jump; split <;> rfl

theorem jump_bullets (s : PlayerState) : s.jump.bullets = s.bullets := by
  unfold PlayerState.jump; split <;> rfl

theorem jump_remaining_jumps (s : PlayerState) :
    s.jump.remaining_jumps =
      if s.remaining_jumps ≠ 0 then s.remaining_jumps - 1 else s.remaining_jumps := by
  unfold PlayerState.jump; split <;> rfl

/-- A jump action with an exhausted budget is a no-op on the whole state. -/
theorem jump_of_no_jumps (s : PlayerState) (h : s.remaining_jumps = 0) :
    s.jump = s := by
  unfold PlayerState.jump
  rw [h]
  simp

theorem move_health (s : PlayerState) (k : Keys) : (s.move k).health = s.health := by
  simp only [PlayerState.move]; split <;> rfl

theorem move_mass (s : PlayerState) (k : Keys) : (s.move k).mass = s.mass := by
  simp only [PlayerState.move]; split <;> rfl

theorem move_max_jumps (s : PlayerState) (k : Keys) :
    (s.move k).max_jumps = s.max_jumps := by
  simp only [PlayerState.move]; split <;> rfl

theorem move_remaining_jumps (s : PlayerState) (k : Keys) :
    (s.move k).remaining_jumps = s.remaining_jumps := by
  simp only [PlayerState.move]; split <;> rfl

theorem move_bullets (s : PlayerState) (k : Keys) : (s.move k).bullets = s.bullets := by
  simp only [PlayerState.move]; split <;> rfl

theorem shoot_health (s : PlayerState) : s.shoot.health = s.health := by
  unfold PlayerState.shoot; split <;> rfl

theorem shoot_mass (s : PlayerState) : s.shoot.mass = s.mass := by
  unfold PlayerState.shoot; split <;> rfl

theorem shoot_max_jumps (s : PlayerState) : s.shoot.max_jumps = s.max_jumps := by
  unfold PlayerState.shoot; split <;> rfl

theorem shoot_remaining_jumps (s : PlayerState) :
    s.shoot.remaining_jumps = s.remaining_jumps := by
  unfold PlayerState.shoot; split <;> rfl

theorem preContact_health (s : PlayerState) : s.preContact.health = s.health := by
  simp only [PlayerState.preContact]; split <;> rfl

theorem preContact_mass (s : PlayerState) : s.preContact.mass = s.mass := by
  simp only [PlayerState.preContact]; split <;> rfl

theorem preContact_velocity (s : PlayerState) : s.preContact.velocity = s.velocity := by
  simp only [PlayerState.preContact]; split <;> rfl

theorem preContact_remaining_jumps (s : PlayerState) :
    s.preContact.remaining_jumps = s.remaining_jumps := by
  simp only [PlayerState.preContact]; split <;> rfl

theorem preContact_max_jumps (s : PlayerState) :
    s.preContact.max_jumps = s.max_jumps := by
  simp only [PlayerState.preContact]; split <;> rfl

theorem preContact_bullets (s : PlayerState) :
    s.preContact.bullets = ageBullets s.bullets := by
  simp only [PlayerState.preContact]; split <;> rfl

theorem preContact_shot_cooldown (s : PlayerState) :
    s.preContact.shot_cooldown =
      if s.shot_cooldown ≠ 0 then s.shot_cooldown - 1 else s.shot_cooldown := by
  simp only [PlayerState.preContact]; split <;> rfl

/-- Any player-state projection untouched by `calculate_landing` is
preserved by the whole arbiter fold. -/
theorem foldl_calculate_landing_preserves {α : Type}
    (f : PlayerState → α) (hf : ∀ s a, f (calculate_landing s a) = f s) :
    ∀ (arbs : List Arbiter) (s : PlayerState),
      f (arbs.foldl calculate_landing s) = f s := by
  intro arbs
  induction arbs with
  | nil => intro s; rfl
  | cons a as ih => intro s; rw [List.foldl_cons, ih, hf]

theorem classify_velocity (s : PlayerState) (arbs : List Arbiter) :
    (s.classify arbs).velocity = s.velocity := by
  unfold PlayerState.classify
  rw [foldl_calculate_landing_preserves PlayerState.velocity calculate_landing_velocity]

theorem classify_remaining_jumps (s : PlayerState) (arbs : List Arbiter) :
    (s.classify arbs).remaining_jumps = s.remaining_jumps := by
  unfold PlayerState.classify
  rw [foldl_calculate_landing_preserves PlayerState.remaining_jumps
    calculate_landing_remaining_jumps]

theorem classify_max_jumps (s : PlayerState) (arbs : List Arbiter) :
    (s.classify arbs).max_jumps = s.max_jumps := by
  unfold PlayerState.classify
  rw [foldl_calculate_landing_preserves PlayerState.max_jumps calculate_landing_max_jumps]

theorem classify_mass (s : PlayerState) (arbs : List Arbiter) :
    (s.classify arbs).mass = s.mass := by
  unfold PlayerState.classify
  rw [foldl_calculate_landing_preserves PlayerState.mass calculate_landing_mass]

theorem classify_bullets (s : PlayerState) (arbs : List Arbiter) :
    (s.classify arbs).bullets = s.bullets := by
  unfold PlayerState.classify
  rw [foldl_calculate_landing_preserves PlayerState.bullets calculate_landing_bullets]

theorem classify_shot_cooldown (s : PlayerState) (arbs : List Arbiter) :
    (s.classify arbs).shot_cooldown = s.shot_cooldown := by
  unfold PlayerState.classify
  rw [foldl_calculate_landing_preserves PlayerState.shot_cooldown
    calculate_landing_shot_cooldown]

/-- The arbiter fold decrements health once per qualifying squish arbiter. -/
theorem foldl_calculate_landing_health :
    ∀ (arbs : List Arbiter) (s : PlayerState),
      (arbs.foldl calculate_landing s).health =
        s.health - arbs.countP (isSquish s.mass) := by
  intro arbs
  induction arbs with
  | nil => intro s; simp
  | cons a as ih =>
    intro s
    rw [List.foldl_cons, ih, calculate_landing_health, calculate_landing_mass,
      List.countP_cons]
    by_cases h : isSquish s.mass a <;> simp [h] <;> omega

theorem classify_health (s : PlayerState) (arbs : List Arbiter) :
    (s.classify arbs).health = s.health - arbs.countP (isSquish s.mass) := by
  unfold PlayerState.classify
  rw [foldl_calculate_landing_health]

theorem postContact_health (s : PlayerState) (k : Keys) :
    (s.postContact k).health = s.health := by
  simp only [PlayerState.postContact]
  split
  · rfl
  · split <;> split <;> split <;>
      simp only [shoot_health, move_health, jump_health] <;> rfl

theorem postContact_mass (s : PlayerState) (k : Keys) :
    (s.postContact k).mass = s.mass := by
  simp only [PlayerState.postContact]
  split
  · rfl
  · split <;> split <;> split <;>
      simp only [shoot_mass, move_mass, jump_mass] <;> rfl

theorem postContact_max_jumps (s : PlayerState) (k : Keys) :
    (s.postContact k).max_jumps = s.max_jumps := by
  simp only [PlayerState.postContact]
  split
  · rfl
  · split <;> split <;> split <;>
      simp only [shoot_max_jumps, move_max_jumps, jump_max_jumps] <;> rfl

/-- The jump budget after `postContact` takes one of four shapes: untouched,
reset to the maximum, decremented from a nonzero budget, or reset and then
decremented. -/
theorem postContact_remaining_jumps_cases (s : PlayerState) (k : Keys) :
    (s.postContact k).remaining_jumps = s.remaining_jumps ∨
    (s.postContact k).remaining_jumps = s.max_jumps ∨
    (s.remaining_jumps ≠ 0 ∧
      (s.postContact k).remaining_jumps = s.remaining_jumps - 1) ∨
    (s.max_jumps ≠ 0 ∧ (s.postContact k).remaining_jumps = s.max_jumps - 1) := by
  simp only [PlayerState.postContact]
  split
  · exact Or.inl rfl
  · split <;> split <;> split <;>
      simp only [shoot_remaining_jumps, move_remaining_jumps, jump_remaining_jumps] <;>
      by_cases hm : s.max_jumps ≠ 0 <;> by_cases hr : s.remaining_jumps ≠ 0 <;>
      simp [hm, hr] <;> tauto

/-- Without the grounded refill firing, `postContact` never increases the
jump budget. -/
theorem postContact_remaining_jumps_no_reset (s : PlayerState) (k : Keys)
    (h : ¬ (s.landed = true ∧ s.ground_slope < 2)) :
    (s.postContact k).remaining_jumps ≤ s.remaining_jumps := by
  simp only [PlayerState.postContact]
  split
  · exact le_refl _
  · split <;> simp only [shoot_remaining_jumps, move_remaining_jumps] <;>
      split <;> (try simp only [jump_remaining_jumps]) <;>
      first
        | omega
        | (split <;> omega)

/-- When alive, landed on a shallow-enough slope, and not jumping this
frame, `postContact` resets the jump budget to the maximum. -/
theorem postContact_remaining_jumps_reset (s : PlayerState) (k : Keys)
    (hh : ¬ s.health < 0) (h : s.landed = true ∧ s.ground_slope < 2)
    (hj : k.jump ≠ 1) :
    (s.postContact k).remaining_jumps = s.max_jumps := by
  simp only [PlayerState.postContact]
  rw [if_neg hh, if_pos h, if_neg hj]
  split <;> simp only [shoot_remaining_jumps, move_remaining_jumps] <;> rfl

/-- When the grounded refill does not fire and no jump is triggered this
frame, `postContact` leaves the jump budget exactly unchanged. -/
theorem postContact_remaining_jumps_frozen (s : PlayerState) (k : Keys)
    (h : ¬ (s.landed = true ∧ s.ground_slope < 2)) (hj : k.jump ≠ 1) :
    (s.postContact k).remaining_jumps = s.remaining_jumps := by
  simp only [PlayerState.postContact]
  split
  · rfl
  · split <;> simp only [shoot_remaining_jumps, move_remaining_jumps] <;> rfl

theorem update_max_jumps (s : PlayerState) (arbs : List Arbiter) (k : Keys) :
    (s.update arbs k).max_jumps = s.max_jumps := by
  unfold PlayerState.update
  rw [postContact_max_jumps, classify_max_jumps, preContact_max_jumps]

/-- One `Player.update` call keeps the jump budget inside `[0, max_jumps]`. -/
theorem update_preserves_jump_budget (s : PlayerState) (arbs : List Arbiter) (k : Keys)
    (h1 : 0 ≤ s.remaining_jumps) (h2 : s.remaining_jumps ≤ s.max_jumps) :
    0 ≤ (s.update arbs k).remaining_jumps ∧
    (s.update arbs k).remaining_jumps ≤ (s.update arbs k).max_jumps := by
  have hrj : (s.preContact.classify arbs).remaining_jumps = s.remaining_jumps := by
    rw [classify_remaining_jumps, preContact_remaining_jumps]
  have hmj : (s.preContact.classify arbs).max_jumps = s.max_jumps := by
    rw [classify_max_jumps, preContact_max_jumps]
  have hpost := postContact_max_jumps (s.preContact.classify arbs) k
  have hupd : s.update arbs k = (s.preContact.classify arbs).postContact k := rfl
  rw [hupd]
  rcases postContact_remaining_jumps_cases (s.preContact.classify arbs) k with
    h | h | ⟨hne, h⟩ | ⟨hne, h⟩ <;> omega

/-- The jump budget stays inside `[0, max_jumps]` along any play session. -/
theorem run_preserves_jump_budget (frames : List Frame) :
    ∀ s : PlayerState, 0 ≤ s.remaining_jumps → s.remaining_jumps ≤ s.max_jumps →
      0 ≤ (s.run frames).remaining_jumps ∧
      (s.run frames).remaining_jumps ≤ (s.run frames).max_jumps := by
  induction frames with
  | nil => exact fun s h1 h2 => ⟨h1, h2⟩
  | cons f fs ih =>
    intro s h1 h2
    have hstep := update_preserves_jump_budget s f.1 f.2 h1 h2
    have hrun : s.run (f :: fs) = (s.update f.1 f.2).run fs := by
      unfold PlayerState.run
      rw [List.foldl_cons]
    rw [hrun]
    exact ih _ hstep.1 hstep.2

/-! ## Claim C1: polarity of the Jump-Through Gate -/

/-- C1 (counterexample): the claim states that the gate allows a solid
contact iff the player's vertical velocity is non-negative and rejects it
iff the velocity is negative.  On the code this is reversed: with downward
velocity `-100` the handler returns `true`, i.e. the engine processes the
collision and the contact is solid, so the claimed equivalence fails. -/
theorem C1_counterexample :
    jump_through_collision_handler ⟨⟨0, -100⟩⟩ = true ∧ ((-100 : ℚ) < 0) ∧
    ¬ (∀ a : JTArbiter,
        (jump_through_collision_handler a = true ↔ 0 ≤ a.shape0_body_velocity.y)) := by
  refine ⟨by decide, by decide, fun h => ?_⟩
  have h1 := (h ⟨⟨0, -100⟩⟩).mp (by decide)
  exact absurd h1 (by decide)

/-- C1 (amended): for every collision-begin event between a player collider
and a jump-through segment, the gate allows the contact to be solid iff the
player's vertical velocity at contact is negative (falling onto the platform
from above), and rejects the contact (pass-through) iff the vertical
velocity is non-negative (jumping up through it, or stationary). -/
theorem C1_theorem (a : JTArbiter) :
    (jump_through_collision_handler a = true ↔ a.shape0_body_velocity.y < 0) ∧
    (jump_through_collision_handler a = false ↔ 0 ≤ a.shape0_body_velocity.y) := by
  unfold jump_through_collision_handler
  constructor
  · exact decide_eq_true_iff
  · rw [decide_eq_false_iff_not, not_lt]

/-! ## Claim C7: bullet time-to-live -/

/-- C7: a bullet created with `ttl = 40` that never registers a contact is
still active, still in the physics space, not yet in the owner's removal
set, and at `ttl = 0` after 40 update calls; on the 41st update call its
`ttl` first becomes negative and it is destroyed: removed from the space,
marked inactive, and dropped from the owner's bullet list, after which the
aging loop never touches it again (the list stays empty). -/
theorem C7_theorem :
    (Bullet.init.ttl = 40) ∧
    (Bullet.step^[40] Bullet.init =
      { radius := 3, speed := 500, ttl := 0, cooldown := 10,
        active := true, in_space := true }) ∧
    (Bullet.step^[41] Bullet.init =
      { radius := 3, speed := 500, ttl := -1, cooldown := 10,
        active := false, in_space := false }) ∧
    (ageBulletsN 40 [Bullet.init] =
      [{ radius := 3, speed := 500, ttl := 0, cooldown := 10,
         active := true, in_space := true }]) ∧
    (ageBulletsN 41 [Bullet.init] = []) ∧
    (ageBullets [] = []) := by
  set_option maxRecDepth 8000 in decide

/-! ## Claim C8: bullet destruction is idempotent -/

/-- C8: destroying a bullet whose body and shape are already absent from the
physics space is a silent no-op: `SPACE.remove` raises the "not found"
signal, `destroy` swallows it, no exception escapes (`destroy` is total and
returns the bullet unchanged), and a second `destroy` after a first is
always harmless. -/
theorem C8_theorem (b : Bullet) :
    (b.in_space = false → space_remove b = Except.error () ∧ b.destroy = b) ∧
    b.destroy.destroy = b.destroy := by
  constructor
  · intro h
    constructor
    · simp [space_remove, h]
    · simp [Bullet.destroy, space_remove, h]
  · by_cases h : b.in_space
    · simp [Bullet.destroy, space_remove, h]
    · simp [Bullet.destroy, space_remove, h]

/-- C8 (witness): a concrete already-removed bullet, on which `destroy` is a
no-op and double-destroy is safe. -/
theorem C8_witness :
    (Bullet.mk 3 500 40 10 true false).in_space = false ∧
    (space_remove (Bullet.mk 3 500 40 10 true false) = Except.error () ∧
      (Bullet.mk 3 500 40 10 true false).destroy = Bullet.mk 3 500 40 10 true false) ∧
    (Bullet.mk 3 500 40 10 true false).destroy.destroy =
      (Bullet.mk 3 500 40 10 true false).destroy :=
  ⟨rfl, (C8_theorem _).1 rfl, (C8_theorem _).2⟩

/-! ## Claim C9: the contact classifier's slope formula is guarded -/

/-- C9: for every contact arbiter whose inverted normal `n` has `n.y > 0`
and whose other shape is not a bullet, `calculate_landing` marks the player
landed and sets `ground_slope = n.x / n.y`; under the guard `n.y > 0` the
divisor cannot be zero, so the division-by-zero case is unreachable. -/
theorem C9_theorem (s : PlayerState) (a : Arbiter)
    (h1 : a.normal.neg.y > 0)
    (h2 : a.shape1_collision_type ≠ BULLET_COLLISION_TYPE) :
    (calculate_landing s a).landed = true ∧
    (calculate_landing s a).ground_slope = a.normal.neg.x / a.normal.neg.y ∧
    a.normal.neg.y ≠ 0 := by
  unfold calculate_landing
  rw [if_pos ⟨h1, h2⟩]
  exact ⟨rfl, rfl, ne_of_gt h1⟩

/-! ### Platform-motion lemmas -/

/-- The distance covered by `interpolate_to` scales the full distance by
`|t|`. -/
theorem get_distance_interpolate_to (a b : Vec2R) (t : ℝ) :
    a.get_distance (a.interpolate_to b t) = |t| * a.get_distance b := by
  unfold Vec2R.get_distance Vec2R.interpolate_to
  have h : (a.x + (b.x - a.x) * t - a.x) ^ 2 + (a.y + (b.y - a.y) * t - a.y) ^ 2 =
      t ^ 2 * ((b.x - a.x) ^ 2 + (b.y - a.y) ^ 2) := by ring
  rw [h, Real.sqrt_mul (sq_nonneg t), Real.sqrt_sq_eq_abs]

/-- `Platform.update` on a platform with waypoints, with the branch data
written out. -/
theorem Platform.update_eq (p : Platform) (dt : ℝ) (hw : p.waypoints ≠ []) :
    p.update dt =
      { p with
        target_index :=
          if Vec2R.get_distance p.position (p.waypoints.getD p.target_index ⟨0, 0⟩) < p.speed
          then (p.target_index + 1) % p.waypoints.length else p.target_index,
        position := p.position.interpolate_to (p.waypoints.getD p.target_index ⟨0, 0⟩)
          (if Vec2R.get_distance p.position (p.waypoints.getD p.target_index ⟨0, 0⟩) < p.speed
           then 1
           else p.speed / Vec2R.get_distance p.position (p.waypoints.getD p.target_index ⟨0, 0⟩)),
        velocity :=
          ⟨((p.position.interpolate_to (p.waypoints.getD p.target_index ⟨0, 0⟩)
              (if Vec2R.get_distance p.position (p.waypoints.getD p.target_index ⟨0, 0⟩) < p.speed
               then 1
               else p.speed /
                 Vec2R.get_distance p.position (p.waypoints.getD p.target_index ⟨0, 0⟩))).x -
              p.position.x) / dt,
           ((p.position.interpolate_to (p.waypoints.getD p.target_index ⟨0, 0⟩)
              (if Vec2R.get_distance p.position (p.waypoints.getD p.target_index ⟨0, 0⟩) < p.speed
               then 1
               else p.speed /
                 Vec2R.get_distance p.position (p.waypoints.getD p.target_index ⟨0, 0⟩))).y -
              p.position.y) / dt⟩ } := by
  unfold Platform.update
  split
  next h => exact absurd h hw
  next =>
    by_cases hc :
        Vec2R.get_distance p.position (p.waypoints.getD p.target_index ⟨0, 0⟩) < p.speed
    · simp only [if_pos hc]
    · simp only [if_neg hc]

/-- One waypoint-chasing step along the x-axis for the scenario platform
(waypoints `[(0,0), (100,0)]`, speed 10, target 1): from `(x, 0)` with at
least 10 units still to cover, the platform advances exactly 10 units. -/
theorem platform_move_step (x x' : ℝ) (v : Vec2R) (dt : ℝ)
    (h : 10 ≤ 100 - x) (hx : x' = x + 10) :
    Platform.update ⟨[⟨0, 0⟩, ⟨100, 0⟩], 10, 1, ⟨x, 0⟩, v⟩ dt =
      ⟨[⟨0, 0⟩, ⟨100, 0⟩], 10, 1, ⟨x', 0⟩, ⟨10 / dt, 0⟩⟩ := by
  have hdist : Vec2R.get_distance ⟨x, 0⟩ ⟨100, 0⟩ = 100 - x := by
    unfold Vec2R.get_distance
    have h2 : ((100 : ℝ) - x) ^ 2 + ((0 : ℝ) - 0) ^ 2 = (100 - x) ^ 2 := by ring
    rw [h2, Real.sqrt_sq (by linarith)]
  have hne : (100 : ℝ) - x ≠ 0 := by linarith
  rw [Platform.update_eq _ _ (by simp)]
  simp only [List.getD_cons_succ, List.getD_cons_zero, hdist,
    if_neg (by linarith : ¬ ((100 : ℝ) - x < 10))]
  unfold Vec2R.interpolate_to
  have hkey : (100 - x) * (10 / (100 - x)) = 10 := by field_simp
  simp only [Platform.mk.injEq, Vec2R.mk.injEq]
  norm_num [hkey, hx]

/-- The first update step of the scenario platform: it starts on waypoint 0,
so the step only retargets to waypoint 1 and does not move. -/
theorem platform_start_step (v : Vec2R) (dt : ℝ) :
    Platform.update ⟨[⟨0, 0⟩, ⟨100, 0⟩], 10, 0, ⟨0, 0⟩, v⟩ dt =
      ⟨[⟨0, 0⟩, ⟨100, 0⟩], 10, 1, ⟨0, 0⟩, ⟨0, 0⟩⟩ := by
  have hdist : Vec2R.get_distance ⟨0, 0⟩ ⟨0, 0⟩ = 0 := by
    unfold Vec2R.get_distance
    norm_num
  rw [Platform.update_eq _ _ (by simp)]
  simp only [List.getD_cons_zero, hdist]
  rw [if_pos (by norm_num : (0 : ℝ) < 10)]
  unfold Vec2R.interpolate_to
  simp only [Platform.mk.injEq, Vec2R.mk.injEq]
  norm_num

/-- The arrival step of the scenario platform: sitting on waypoint 1 at
`(100, 0)`, the step retargets back to waypoint 0 and does not move. -/
theorem platform_arrive_step (v : Vec2R) (dt : ℝ) :
    Platform.update ⟨[⟨0, 0⟩, ⟨100, 0⟩], 10, 1, ⟨100, 0⟩, v⟩ dt =
      ⟨[⟨0, 0⟩, ⟨100, 0⟩], 10, 0, ⟨100, 0⟩, ⟨0, 0⟩⟩ := by
  have hdist : Vec2R.get_distance ⟨100, 0⟩ ⟨100, 0⟩ = 0 := by
    unfold Vec2R.get_distance
    norm_num
  rw [Platform.update_eq _ _ (by simp)]
  simp only [List.getD_cons_succ, List.getD_cons_zero, hdist]
  rw [if_pos (by norm_num : (0 : ℝ) < 10)]
  unfold Vec2R.interpolate_to
  simp only [Platform.mk.injEq, Vec2R.mk.injEq]
  norm_num

/-- The scenario platform's trajectory: after `n + 1` update steps
(`n ≤ 10`) it sits at `(10 n, 0)`, still chasing waypoint 1.  The position
is distance-driven and does not depend on `dt`. -/
theorem platform_scenario_pos (dt : ℝ) :
    ∀ n : ℕ, n ≤ 10 →
      Platform.updateN (Platform.mk [⟨0, 0⟩, ⟨100, 0⟩] 10 0 ⟨0, 0⟩ ⟨0, 0⟩) dt (n + 1) =
        Platform.mk [⟨0, 0⟩, ⟨100, 0⟩] 10 1 ⟨10 * (n : ℝ), 0⟩
          (if n = 0 then ⟨0, 0⟩ else ⟨10 / dt, 0⟩) := by
  intro n
  induction n with
  | zero =>
    intro _
    show Platform.update (Platform.mk [⟨0, 0⟩, ⟨100, 0⟩] 10 0 ⟨0, 0⟩ ⟨0, 0⟩) dt = _
    rw [platform_start_step ⟨0, 0⟩ dt]
    norm_num
  | succ m ih =>
    intro hm
    have hm9 : (m : ℝ) ≤ 9 := by exact_mod_cast (by omega : m ≤ 9)
    show (Platform.updateN _ dt (m + 1)).update dt = _
    rw [ih (by omega), if_neg (Nat.succ_ne_zero m)]
    exact platform_move_step (10 * (m : ℝ)) (10 * ((m + 1 : ℕ) : ℝ)) _ dt
      (by linarith)
      (by push_cast; ring)

/-! ## Claim C2: platform waypoint motion -/

/-- C2 (counterexample): the claim bounds the per-step displacement by
`speed * dt`.  The code's step is distance-driven, not time-driven: from
`(0,0)` toward `(100,0)` at speed 10 with `dt = 1/2`, one update moves the
platform 10 units, exceeding `speed * dt = 5`. -/
theorem C2_counterexample :
    (Platform.update (Platform.mk [⟨0, 0⟩, ⟨100, 0⟩] 10 1 ⟨0, 0⟩ ⟨0, 0⟩) (1 / 2)).position =
      (⟨10, 0⟩ : Vec2R) ∧
    Vec2R.get_distance ⟨0, 0⟩ ⟨10, 0⟩ = 10 ∧
    ¬ (Vec2R.get_distance ⟨0, 0⟩ ⟨10, 0⟩ ≤ (10 : ℝ) * (1 / 2)) := by
  have hd : Vec2R.get_distance ⟨0, 0⟩ ⟨10, 0⟩ = 10 := by
    unfold Vec2R.get_distance
    have h2 : ((10 : ℝ) - 0) ^ 2 + ((0 : ℝ) - 0) ^ 2 = 10 ^ 2 := by ring
    rw [h2, Real.sqrt_sq (by norm_num)]
  refine ⟨?_, hd, by rw [hd]; norm_num⟩
  rw [platform_move_step 0 10 ⟨0, 0⟩ (1 / 2) (by norm_num) (by norm_num)]

/-- C2 (amended): for every platform with a non-empty waypoint list and
positive speed, each update advances the position toward the current target
waypoint by at most `speed` units per update call (independent of `dt`),
sets the velocity to the realized per-step displacement divided by `dt`,
and advances the target index cyclically exactly when the target waypoint
lies within `speed` distance. -/
theorem C2_theorem (p : Platform) (dt : ℝ) (hw : p.waypoints ≠ []) (hs : 0 < p.speed) :
    Vec2R.get_distance p.position (p.update dt).position ≤ p.speed ∧
    (p.update dt).velocity = ⟨((p.update dt).position.x - p.position.x) / dt,
                             ((p.update dt).position.y - p.position.y) / dt⟩ ∧
    (Vec2R.get_distance p.position (p.waypoints.getD p.target_index ⟨0, 0⟩) < p.speed →
      (p.update dt).target_index = (p.target_index + 1) % p.waypoints.length) ∧
    (p.speed ≤ Vec2R.get_distance p.position (p.waypoints.getD p.target_index ⟨0, 0⟩) →
      (p.update dt).target_index = p.target_index) := by
  rw [Platform.update_eq p dt hw]
  by_cases hc :
      Vec2R.get_distance p.position (p.waypoints.getD p.target_index ⟨0, 0⟩) < p.speed
  · simp only [if_pos hc]
    refine ⟨?_, trivial, fun _ => trivial, fun hge => absurd hc (not_lt.mpr hge)⟩
    rw [get_distance_interpolate_to, abs_one, one_mul]
    exact le_of_lt hc
  · simp only [if_neg hc]
    push_neg at hc
    have hd0 : 0 < Vec2R.get_distance p.position (p.waypoints.getD p.target_index ⟨0, 0⟩) :=
      lt_of_lt_of_le hs hc
    refine ⟨?_, trivial, fun hlt => absurd hlt (not_lt.mpr hc), fun _ => trivial⟩
    rw [get_distance_interpolate_to, abs_of_nonneg (div_nonneg hs.le hd0.le),
      div_mul_cancel₀ _ (ne_of_gt hd0)]

/-- C2 (witness): the scenario platform at `(0,0)` chasing `(100,0)` with
speed 10 and `dt = 1`. -/
theorem C2_witness :
    (Platform.mk [⟨0, 0⟩, ⟨100, 0⟩] 10 1 ⟨0, 0⟩ ⟨0, 0⟩).waypoints ≠ [] ∧
    0 < (Platform.mk [⟨0, 0⟩, ⟨100, 0⟩] 10 1 ⟨0, 0⟩ ⟨0, 0⟩).speed ∧
    (Vec2R.get_distance (Platform.mk [⟨0, 0⟩, ⟨100, 0⟩] 10 1 ⟨0, 0⟩ ⟨0, 0⟩).position
        ((Platform.mk [⟨0, 0⟩, ⟨100, 0⟩] 10 1 ⟨0, 0⟩ ⟨0, 0⟩).update 1).position ≤
      (Platform.mk [⟨0, 0⟩, ⟨100, 0⟩] 10 1 ⟨0, 0⟩ ⟨0, 0⟩).speed ∧
    ((Platform.mk [⟨0, 0⟩, ⟨100, 0⟩] 10 1 ⟨0, 0⟩ ⟨0, 0⟩).update 1).velocity =
      ⟨(((Platform.mk [⟨0, 0⟩, ⟨100, 0⟩] 10 1 ⟨0, 0⟩ ⟨0, 0⟩).update 1).position.x -
          (Platform.mk [⟨0, 0⟩, ⟨100, 0⟩] 10 1 ⟨0, 0⟩ ⟨0, 0⟩).position.x) / 1,
       (((Platform.mk [⟨0, 0⟩, ⟨100, 0⟩] 10 1 ⟨0, 0⟩ ⟨0, 0⟩).update 1).position.y -
          (Platform.mk [⟨0, 0⟩, ⟨100, 0⟩] 10 1 ⟨0, 0⟩ ⟨0, 0⟩).position.y) / 1⟩ ∧
    (Vec2R.get_distance (Platform.mk [⟨0, 0⟩, ⟨100, 0⟩] 10 1 ⟨0, 0⟩ ⟨0, 0⟩).position
        ((Platform.mk [⟨0, 0⟩, ⟨100, 0⟩] 10 1 ⟨0, 0⟩ ⟨0, 0⟩).waypoints.getD
          (Platform.mk [⟨0, 0⟩, ⟨100, 0⟩] 10 1 ⟨0, 0⟩ ⟨0, 0⟩).target_index ⟨0, 0⟩) <
        (Platform.mk [⟨0, 0⟩, ⟨100, 0⟩] 10 1 ⟨0, 0⟩ ⟨0, 0⟩).speed →
      ((Platform.mk [⟨0, 0⟩, ⟨100, 0⟩] 10 1 ⟨0, 0⟩ ⟨0, 0⟩).update 1).target_index =
        ((Platform.mk [⟨0, 0⟩, ⟨100, 0⟩] 10 1 ⟨0, 0⟩ ⟨0, 0⟩).target_index + 1) %
          (Platform.mk [⟨0, 0⟩, ⟨100, 0⟩] 10 1 ⟨0, 0⟩ ⟨0, 0⟩).waypoints.length) ∧
    ((Platform.mk [⟨0, 0⟩, ⟨100, 0⟩] 10 1 ⟨0, 0⟩ ⟨0, 0⟩).speed ≤
        Vec2R.get_distance (Platform.mk [⟨0, 0⟩, ⟨100, 0⟩] 10 1 ⟨0, 0⟩ ⟨0, 0⟩).position
          ((Platform.mk [⟨0, 0⟩, ⟨100, 0⟩] 10 1 ⟨0, 0⟩ ⟨0, 0⟩).waypoints.getD
            (Platform.mk [⟨0, 0⟩, ⟨100, 0⟩] 10 1 ⟨0, 0⟩ ⟨0, 0⟩).target_index ⟨0, 0⟩) →
      ((Platform.mk [⟨0, 0⟩, ⟨100, 0⟩] 10 1 ⟨0, 0⟩ ⟨0, 0⟩).update 1).target_index =
        (Platform.mk [⟨0, 0⟩, ⟨100, 0⟩] 10 1 ⟨0, 0⟩ ⟨0, 0⟩).target_index)) :=
  ⟨by simp, by norm_num,
    C2_theorem (Platform.mk [⟨0, 0⟩, ⟨100, 0⟩] 10 1 ⟨0, 0⟩ ⟨0, 0⟩) 1 (by simp) (by norm_num)⟩

/-! ## Claim C6: the scenario platform's timeline -/

/-- C6 (counterexample): the claim says the platform reaches `(100, 0)`
after exactly 10 update steps.  The very first step is consumed retargeting
away from waypoint 0 (the body starts on it), so after 10 steps the
platform is only at `(90, 0)`. -/
theorem C6_counterexample :
    (Platform.updateN (Platform.mk [⟨0, 0⟩, ⟨100, 0⟩] 10 0 ⟨0, 0⟩ ⟨0, 0⟩) 1 10).position =
      (⟨90, 0⟩ : Vec2R) ∧
    (⟨90, 0⟩ : Vec2R) ≠ (⟨100, 0⟩ : Vec2R) := by
  constructor
  · have h10 := platform_scenario_pos 1 9 (by norm_num)
    rw [show (10 : ℕ) = 9 + 1 from rfl, h10]
    norm_num
  · intro h
    have hx := congrArg Vec2R.x h
    norm_num at hx

/-- C6 (amended): the scenario platform (waypoints `[(0,0), (100,0)]`,
speed 10, body starting at `(0,0)` targeting waypoint 0) reaches `(100,0)`
after exactly 11 update steps — the first step only retargets from waypoint
0 to waypoint 1 — and the immediately following (12th) step retargets back
toward waypoint 0, staying at `(100, 0)`.  The step count is
distance-driven: it holds for every `dt`. -/
theorem C6_theorem (dt : ℝ) :
    (Platform.updateN (Platform.mk [⟨0, 0⟩, ⟨100, 0⟩] 10 0 ⟨0, 0⟩ ⟨0, 0⟩) dt 11).position =
      (⟨100, 0⟩ : Vec2R) ∧
    (Platform.updateN (Platform.mk [⟨0, 0⟩, ⟨100, 0⟩] 10 0 ⟨0, 0⟩ ⟨0, 0⟩) dt 11).target_index = 1 ∧
    (Platform.updateN (Platform.mk [⟨0, 0⟩, ⟨100, 0⟩] 10 0 ⟨0, 0⟩ ⟨0, 0⟩) dt 12).position =
      (⟨100, 0⟩ : Vec2R) ∧
    (Platform.updateN (Platform.mk [⟨0, 0⟩, ⟨100, 0⟩] 10 0 ⟨0, 0⟩ ⟨0, 0⟩) dt 12).target_index = 0 := by
  have h11 := platform_scenario_pos dt 10 (le_refl 10)
  rw [show ((10 : ℕ) + 1) = 11 from rfl] at h11
  have h11' : Platform.updateN (Platform.mk [⟨0, 0⟩, ⟨100, 0⟩] 10 0 ⟨0, 0⟩ ⟨0, 0⟩) dt 11 =
      Platform.mk [⟨0, 0⟩, ⟨100, 0⟩] 10 1 ⟨100, 0⟩ ⟨10 / dt, 0⟩ := by
    rw [h11]
    norm_num
  have h12 : Platform.updateN (Platform.mk [⟨0, 0⟩, ⟨100, 0⟩] 10 0 ⟨0, 0⟩ ⟨0, 0⟩) dt 12 =
      Platform.mk [⟨0, 0⟩, ⟨100, 0⟩] 10 0 ⟨100, 0⟩ ⟨0, 0⟩ := by
    show (Platform.updateN (Platform.mk [⟨0, 0⟩, ⟨100, 0⟩] 10 0 ⟨0, 0⟩ ⟨0, 0⟩) dt 11).update dt = _
    rw [h11']
    exact platform_arrive_step ⟨10 / dt, 0⟩ dt
  exact ⟨by rw [h11'], by rw [h11'], by rw [h12], by rw [h12]⟩

/-! ## Claim C3: squish damage per frame -/

/-- C3 (counterexample): the claim says health decreases by exactly 1 in a
squish frame no matter how many simultaneous qualifying contacts there are.
With two qualifying arbiters, each of landing speed `10000 / 5 = 2000 >
1000`, one `Player.update` call takes health from 10 to 8, not to 9. -/
theorem C3_counterexample :
    (PlayerState.update PlayerState.init
        [⟨⟨0, -1⟩, 2, ⟨0, 0⟩, ⟨0, 10000⟩⟩, ⟨⟨0, -1⟩, 2, ⟨0, 0⟩, ⟨0, 10000⟩⟩]
        ⟨0, 0, 0, 0⟩).health = 8 ∧
    PlayerState.init.health = 10 ∧ ((8 : ℤ) ≠ 10 - 1) := by
  refine ⟨?_, by decide, by decide⟩
  norm_num [PlayerState.update, PlayerState.preContact, PlayerState.classify,
    PlayerState.postContact, PlayerState.move, PlayerState.jump, PlayerState.shoot,
    calculate_landing, PlayerState.init, Vec2.neg, BULLET_COLLISION_TYPE,
    ageBullets, lerp]

/-- C3 (amended): in every frame, the player's health decreases by exactly
one point per qualifying squish contact (ground-guard passed and
`total_impulse.y / mass > 1000`), i.e. by the number of simultaneous
qualifying contacts that frame — independent of any projectile damage,
which lives outside `Player.update`. -/
theorem C3_theorem (s : PlayerState) (arbs : List Arbiter) (keys : Keys) :
    (s.update arbs keys).health = s.health - arbs.countP (isSquish s.mass) := by
  unfold PlayerState.update
  rw [postContact_health, classify_health, preContact_health, preContact_mass]

/-! ## Claim C4: the jump-budget invariant -/

/-- C4: along any sequence of update calls from a state satisfying
`0 ≤ remaining_jumps ≤ max_jumps`, the bounds keep holding; without the
grounded-reset condition the budget never increases, whatever the input
keys; and from a full budget of `max_jumps = 2`, two consecutive jump
actions exhaust the budget and a third jump action leaves the body's
velocity unchanged. -/
theorem C4_theorem (s : PlayerState) (frames : List Frame)
    (h1 : 0 ≤ s.remaining_jumps) (h2 : s.remaining_jumps ≤ s.max_jumps) :
    (0 ≤ (s.run frames).remaining_jumps ∧
      (s.run frames).remaining_jumps ≤ (s.run frames).max_jumps) ∧
    (∀ (arbs : List Arbiter) (k : Keys),
      ¬ ((s.preContact.classify arbs).landed = true ∧
          (s.preContact.classify arbs).ground_slope < 2) →
      (s.update arbs k).remaining_jumps ≤ s.remaining_jumps) ∧
    (s.remaining_jumps = 2 → s.max_jumps = 2 →
      s.jump.jump.remaining_jumps = 0 ∧
      s.jump.jump.jump.velocity = s.jump.jump.velocity) := by
  refine ⟨run_preserves_jump_budget frames s h1 h2, ?_, ?_⟩
  · intro arbs k hn
    have hrj : (s.preContact.classify arbs).remaining_jumps = s.remaining_jumps := by
      rw [classify_remaining_jumps, preContact_remaining_jumps]
    have hle := postContact_remaining_jumps_no_reset (s.preContact.classify arbs) k hn
    have hupd : s.update arbs k = (s.preContact.classify arbs).postContact k := rfl
    rw [hupd]
    omega
  · intro hr _hm
    have h0 : s.jump.jump.remaining_jumps = 0 := by
      rw [jump_remaining_jumps, jump_remaining_jumps, hr]
      norm_num
    refine ⟨h0, ?_⟩
    rw [jump_of_no_jumps _ h0]

/-- C4 (witness): the freshly initialized player, over a session of one
frame of flat-ground contact with the jump key just pressed. -/
theorem C4_witness :
    0 ≤ PlayerState.init.remaining_jumps ∧
    PlayerState.init.remaining_jumps ≤ PlayerState.init.max_jumps ∧
    ((0 ≤ (PlayerState.init.run [([⟨⟨0, -1⟩, 2, ⟨0, 0⟩, ⟨0, 500⟩⟩], ⟨1, 0, 0, 0⟩)]).remaining_jumps ∧
      (PlayerState.init.run [([⟨⟨0, -1⟩, 2, ⟨0, 0⟩, ⟨0, 500⟩⟩], ⟨1, 0, 0, 0⟩)]).remaining_jumps ≤
        (PlayerState.init.run [([⟨⟨0, -1⟩, 2, ⟨0, 0⟩, ⟨0, 500⟩⟩], ⟨1, 0, 0, 0⟩)]).max_jumps) ∧
    (∀ (arbs : List Arbiter) (k : Keys),
      ¬ ((PlayerState.init.preContact.classify arbs).landed = true ∧
          (PlayerState.init.preContact.classify arbs).ground_slope < 2) →
      (PlayerState.init.update arbs k).remaining_jumps ≤ PlayerState.init.remaining_jumps) ∧
    (PlayerState.init.remaining_jumps = 2 → PlayerState.init.max_jumps = 2 →
      PlayerState.init.jump.jump.remaining_jumps = 0 ∧
      PlayerState.init.jump.jump.jump.velocity = PlayerState.init.jump.jump.velocity)) :=
  ⟨by decide, by decide,
    C4_theorem PlayerState.init [([⟨⟨0, -1⟩, 2, ⟨0, 0⟩, ⟨0, 500⟩⟩], ⟨1, 0, 0, 0⟩)]
      (by decide) (by decide)⟩

/-! ## Claim C5: the jump-refill slope threshold -/

/-- C5 (counterexample): the claim says a near-vertical contact surface,
i.e. `|ground_slope| ≥ 2`, never refills the jump budget.  But the source
guard is the one-sided `ground_slope < 2`: a contact with inverted normal
`(-12/13, 5/13)` yields `ground_slope = -12/5`, whose absolute value 12/5
exceeds 2, yet one update resets `remaining_jumps` from 0 to 2. -/
theorem C5_counterexample :
    (PlayerState.update { PlayerState.init with remaining_jumps := 0 }
        [⟨⟨12/13, -5/13⟩, 2, ⟨0, 0⟩, ⟨0, 0⟩⟩] ⟨0, 0, 0, 0⟩).remaining_jumps = 2 ∧
    ({ PlayerState.init with remaining_jumps := 0 } : PlayerState).remaining_jumps = 0 ∧
    (({ PlayerState.init with remaining_jumps := 0 } : PlayerState).preContact.classify
        [⟨⟨12/13, -5/13⟩, 2, ⟨0, 0⟩, ⟨0, 0⟩⟩]).landed = true ∧
    (({ PlayerState.init with remaining_jumps := 0 } : PlayerState).preContact.classify
        [⟨⟨12/13, -5/13⟩, 2, ⟨0, 0⟩, ⟨0, 0⟩⟩]).ground_slope = -12/5 ∧
    (2 : ℚ) ≤ |(-12 : ℚ)/5| := by
  refine ⟨?_, by decide, ?_, ?_, ?_⟩
  · norm_num [PlayerState.update, PlayerState.preContact, PlayerState.classify,
      PlayerState.postContact, PlayerState.move, PlayerState.jump, PlayerState.shoot,
      calculate_landing, PlayerState.init, Vec2.neg, BULLET_COLLISION_TYPE,
      ageBullets, lerp]
  · norm_num [PlayerState.preContact, PlayerState.classify, calculate_landing,
      PlayerState.init, Vec2.neg, BULLET_COLLISION_TYPE, ageBullets]
  · norm_num [PlayerState.preContact, PlayerState.classify, calculate_landing,
      PlayerState.init, Vec2.neg, BULLET_COLLISION_TYPE, ageBullets]
  · rw [abs_of_nonpos (by norm_num)]
    norm_num

/-- C5 (amended): the refill suppression is one-sided: in a frame with no
jump input, if the player is landed with `ground_slope ≥ 2` the budget is
left exactly unchanged (no refill), and if landed with `ground_slope < 2`
(including arbitrarily steep negative slopes) while alive the budget is
reset to `max_jumps`. -/
theorem C5_theorem (s : PlayerState) (arbs : List Arbiter) (keys : Keys) :
    ((s.preContact.classify arbs).landed = true →
      2 ≤ (s.preContact.classify arbs).ground_slope →
      keys.jump ≠ 1 →
      (s.update arbs keys).remaining_jumps = s.remaining_jumps) ∧
    ((s.preContact.classify arbs).landed = true →
      (s.preContact.classify arbs).ground_slope < 2 →
      ¬ (s.preContact.classify arbs).health < 0 →
      keys.jump ≠ 1 →
      (s.update arbs keys).remaining_jumps = s.max_jumps) := by
  have hupd : s.update arbs keys = (s.preContact.classify arbs).postContact keys := rfl
  constructor
  · intro _hl hs hj
    have hfroz := postContact_remaining_jumps_frozen (s.preContact.classify arbs) keys
      (fun hc => absurd hc.2 (not_lt.mpr hs)) hj
    rw [hupd, hfroz, classify_remaining_jumps, preContact_remaining_jumps]
  · intro hl hs hh hj
    have hres := postContact_remaining_jumps_reset (s.preContact.classify arbs) keys
      hh ⟨hl, hs⟩ hj
    rw [hupd, hres, classify_max_jumps, preContact_max_jumps]

/-- C5 (witness): a steep positive slope (`n = (12/13, 5/13)`, slope 12/5)
freezes the budget, while flat ground (`n = (0, 1)`, slope 0) refills it,
both from a state with an empty budget and no keys pressed. -/
theorem C5_witness :
    (({ PlayerState.init with remaining_jumps := 0 } : PlayerState).preContact.classify
        [⟨⟨-12/13, -5/13⟩, 2, ⟨0, 0⟩, ⟨0, 0⟩⟩]).landed = true ∧
    2 ≤ (({ PlayerState.init with remaining_jumps := 0 } : PlayerState).preContact.classify
        [⟨⟨-12/13, -5/13⟩, 2, ⟨0, 0⟩, ⟨0, 0⟩⟩]).ground_slope ∧
    (PlayerState.update { PlayerState.init with remaining_jumps := 0 }
        [⟨⟨-12/13, -5/13⟩, 2, ⟨0, 0⟩, ⟨0, 0⟩⟩] ⟨0, 0, 0, 0⟩).remaining_jumps =
      ({ PlayerState.init with remaining_jumps := 0 } : PlayerState).remaining_jumps ∧
    (({ PlayerState.init with remaining_jumps := 0 } : PlayerState).preContact.classify
        [⟨⟨0, -1⟩, 2, ⟨0, 0⟩, ⟨0, 0⟩⟩]).landed = true ∧
    (({ PlayerState.init with remaining_jumps := 0 } : PlayerState).preContact.classify
        [⟨⟨0, -1⟩, 2, ⟨0, 0⟩, ⟨0, 0⟩⟩]).ground_slope < 2 ∧
    (PlayerState.update { PlayerState.init with remaining_jumps := 0 }
        [⟨⟨0, -1⟩, 2, ⟨0, 0⟩, ⟨0, 0⟩⟩] ⟨0, 0, 0, 0⟩).remaining_jumps =
      ({ PlayerState.init with remaining_jumps := 0 } : PlayerState).max_jumps := by
  have hl1 : (({ PlayerState.init with remaining_jumps := 0 } : PlayerState).preContact.classify
      [⟨⟨-12/13, -5/13⟩, 2, ⟨0, 0⟩, ⟨0, 0⟩⟩]).landed = true := by
    norm_num [PlayerState.preContact, PlayerState.classify, calculate_landing,
      PlayerState.init, Vec2.neg, BULLET_COLLISION_TYPE, ageBullets]
  have hs1 : 2 ≤ (({ PlayerState.init with remaining_jumps := 0 } : PlayerState).preContact.classify
      [⟨⟨-12/13, -5/13⟩, 2, ⟨0, 0⟩, ⟨0, 0⟩⟩]).ground_slope := by
    norm_num [PlayerState.preContact, PlayerState.classify, calculate_landing,
      PlayerState.init, Vec2.neg, BULLET_COLLISION_TYPE, ageBullets]
  have hl2 : (({ PlayerState.init with remaining_jumps := 0 } : PlayerState).preContact.classify
      [⟨⟨0, -1⟩, 2, ⟨0, 0⟩, ⟨0, 0⟩⟩]).landed = true := by
    norm_num [PlayerState.preContact, PlayerState.classify, calculate_landing,
      PlayerState.init, Vec2.neg, BULLET_COLLISION_TYPE, ageBullets]
  have hs2 : (({ PlayerState.init with remaining_jumps := 0 } : PlayerState).preContact.classify
      [⟨⟨0, -1⟩, 2, ⟨0, 0⟩, ⟨0, 0⟩⟩]).ground_slope < 2 := by
    norm_num [PlayerState.preContact, PlayerState.classify, calculate_landing,
      PlayerState.init, Vec2.neg, BULLET_COLLISION_TYPE, ageBullets]
  have hh2 : ¬ (({ PlayerState.init with remaining_jumps := 0 } : PlayerState).preContact.classify
      [⟨⟨0, -1⟩, 2, ⟨0, 0⟩, ⟨0, 0⟩⟩]).health < 0 := by
    norm_num [PlayerState.preContact, PlayerState.classify, calculate_landing,
      PlayerState.init, Vec2.neg, BULLET_COLLISION_TYPE, ageBullets]
  exact ⟨hl1, hs1,
    (C5_theorem { PlayerState.init with remaining_jumps := 0 }
      [⟨⟨-12/13, -5/13⟩, 2, ⟨0, 0⟩, ⟨0, 0⟩⟩] ⟨0, 0, 0, 0⟩).1 hl1 hs1 (by decide),
    hl2, hs2,
    (C5_theorem { PlayerState.init with remaining_jumps := 0 }
      [⟨⟨0, -1⟩, 2, ⟨0, 0⟩, ⟨0, 0⟩⟩] ⟨0, 0, 0, 0⟩).2 hl2 hs2 hh2 (by decide)⟩

/-! ## Claim C10: the Dead state is a control sink -/

/-- C10: whenever the health check inside `Player.update` sees `health < 0`,
the frame ends right there: the result is exactly the state after bullet
aging, the cooldown tick and contact classification — the velocity, jump
budget and bullet list carry no movement, jump or shot effect — while those
three earlier phases did run (the bullet list is the aged list, the cooldown
ticked down, and the classifier applied its squish decrements without any
health gate of its own). -/
theorem C10_theorem (s : PlayerState) (arbs : List Arbiter) (keys : Keys)
    (h : (s.preContact.classify arbs).health < 0) :
    s.update arbs keys = s.preContact.classify arbs ∧
    (s.preContact.classify arbs).velocity = s.velocity ∧
    (s.preContact.classify arbs).remaining_jumps = s.remaining_jumps ∧
    (s.preContact.classify arbs).bullets = ageBullets s.bullets ∧
    (s.preContact.classify arbs).shot_cooldown =
      (if s.shot_cooldown ≠ 0 then s.shot_cooldown - 1 else s.shot_cooldown) ∧
    (s.preContact.classify arbs).health = s.health - arbs.countP (isSquish s.mass) := by
  refine ⟨?_, ?_, ?_, ?_, ?_, ?_⟩
  · show (s.preContact.classify arbs).postContact keys = s.preContact.classify arbs
    simp only [PlayerState.postContact]
    rw [if_pos h]
  · rw [classify_velocity, preContact_velocity]
  · rw [classify_remaining_jumps, preContact_remaining_jumps]
  · rw [classify_bullets, preContact_bullets]
  · rw [classify_shot_cooldown, preContact_shot_cooldown]
  · rw [classify_health, preContact_health, preContact_mass]

/-- C10 (witness): a player already below zero health, in a frame with no
contacts and every key held. -/
theorem C10_witness :
    (({ PlayerState.init with health := -1 } : PlayerState).preContact.classify []).health < 0 ∧
    (PlayerState.update { PlayerState.init with health := -1 } [] ⟨1, 1, 1, 1⟩ =
      ({ PlayerState.init with health := -1 } : PlayerState).preContact.classify [] ∧
    (({ PlayerState.init with health := -1 } : PlayerState).preContact.classify []).velocity =
      ({ PlayerState.init with health := -1 } : PlayerState).velocity ∧
    (({ PlayerState.init with health := -1 } : PlayerState).preContact.classify []).remaining_jumps =
      ({ PlayerState.init with health := -1 } : PlayerState).remaining_jumps ∧
    (({ PlayerState.init with health := -1 } : PlayerState).preContact.classify []).bullets =
      ageBullets ({ PlayerState.init with health := -1 } : PlayerState).bullets ∧
    (({ PlayerState.init with health := -1 } : PlayerState).preContact.classify []).shot_cooldown =
      (if ({ PlayerState.init with health := -1 } : PlayerState).shot_cooldown ≠ 0 then
        ({ PlayerState.init with health := -1 } : PlayerState).shot_cooldown - 1
      else ({ PlayerState.init with health := -1 } : PlayerState).shot_cooldown) ∧
    (({ PlayerState.init with health := -1 } : PlayerState).preContact.classify []).health =
      ({ PlayerState.init with health := -1 } : PlayerState).health -
        ([] : List Arbiter).countP (isSquish ({ PlayerState.init with health := -1 } : PlayerState).mass)) :=
  ⟨by decide, C10_theorem { PlayerState.init with health := -1 } [] ⟨1, 1, 1, 1⟩ (by decide)⟩

/-- C9 (witness): a flat-ground arbiter (`normal = (0, -1)`, so `n = (0, 1)`)
against a non-bullet shape, classified from the initial player state. -/
theorem C9_witness :
    (Arbiter.mk ⟨0, -1⟩ 2 ⟨0, 0⟩ ⟨0, 0⟩).normal.neg.y > 0 ∧
    (Arbiter.mk ⟨0, -1⟩ 2 ⟨0, 0⟩ ⟨0, 0⟩).shape1_collision_type ≠ BULLET_COLLISION_TYPE ∧
    ((calculate_landing PlayerState.init (Arbiter.mk ⟨0, -1⟩ 2 ⟨0, 0⟩ ⟨0, 0⟩)).landed = true ∧
      (calculate_landing PlayerState.init (Arbiter.mk ⟨0, -1⟩ 2 ⟨0, 0⟩ ⟨0, 0⟩)).ground_slope =
        (Arbiter.mk ⟨0, -1⟩ 2 ⟨0, 0⟩ ⟨0, 0⟩).normal.neg.x /
          (Arbiter.mk ⟨0, -1⟩ 2 ⟨0, 0⟩ ⟨0, 0⟩).normal.neg.y ∧
      (Arbiter.mk ⟨0, -1⟩ 2 ⟨0, 0⟩ ⟨0, 0⟩).normal.neg.y ≠ 0) :=
  ⟨by decide, by decide, C9_theorem PlayerState.init _ (by decide) (by decide)⟩

end Catformer
